import Mathlib

/-!
Verification of the event-notification-system repository against its
natural-language specification.

The Python sources are shallowly embedded: dictionaries become a small JSON
value type `J`, Python enum attribute access becomes a lookup in the member
table transcribed from the defining file (so an access to a member that the
enum does not define yields an `AttributeError`, as it does at runtime), and
every externally visible action of a function (DynamoDB writes, SQS sends,
backoff sleeps) is recorded in an ordered `Effect` list.  Fallible code
returns `Except PyErr`.  Payload fields examined by the embedded code are
strings, integers or booleans, matching the wire schema of the spec.
-/

namespace EventNotif

/-- JSON values, the shape of Python dicts flowing through the system. -/
inductive J where
  | null
  | jb (b : Bool)
  | js (s : String)
  | jn (n : Int)
  | jo (fields : List (String × J))
  | ja (items : List J)
deriving Repr

/-- Python runtime errors surfaced by the embedded code. -/
inductive PyErr where
  | attributeError (cls member : String)
  | keyError (key : String)
  | validationError (model : String)
deriving Repr, DecidableEq

/-- Association-list lookup, used for dicts and for enum member tables. -/
def assocLookup (l : List (String × String)) (k : String) : Option String :=
  match l with
  | [] => none
  | (k2, v) :: rest => if k2 = k then some v else assocLookup rest k

/-- Field lookup in a JSON object (first binding wins, as in a dict). -/
def jget (fields : List (String × J)) (k : String) : Option J :=
  match fields with
  | [] => none
  | (k2, v) :: rest => if k2 = k then some v else jget rest k

/-- Python `d.get(k)` with default `None`: `none` when `p` is not a dict or
lacks the key. -/
def pyGet (p : J) (k : String) : Option J :=
  match p with
  | .jo fs => jget fs k
  | _ => none

/-- Python `d.get(k, default)`. -/
def getD (p : J) (k : String) (d : J) : J := (pyGet p k).getD d

/-- Python `d.get(k, default)` where the call site consumes a string.  The
payload fields read this way are strings on the wire. -/
def getStrD (p : J) (k : String) (d : String) : String :=
  match pyGet p k with
  | some (.js s) => s
  | _ => d

/-- Python `d.get(k, default)` where the call site consumes an integer. -/
def getIntD (p : J) (k : String) (d : Int) : Int :=
  match pyGet p k with
  | some (.jn n) => n
  | _ => d

/-- Python `d.get(k, default)` where the call site consumes a boolean. -/
def getBoolD (p : J) (k : String) (d : Bool) : Bool :=
  match pyGet p k with
  | some (.jb b) => b
  | _ => d

/-- ASCII lowercasing of one character. -/
def pyCharLower (c : Char) : Char :=
  if c.isUpper then Char.ofNat (c.toNat + 32) else c

/-- Python `str.lower()` (the strings compared here are ASCII). -/
def pyLower (s : String) : String := .mk (s.data.map pyCharLower)

/-- Python dict assignment `d[k] = v`: update in place when the key exists,
append otherwise. -/
def pySetFields (fields : List (String × J)) (k : String) (v : J) : List (String × J) :=
  match fields with
  | [] => [(k, v)]
  | (k2, w) :: rest => if k2 = k then (k2, v) :: rest else (k2, w) :: pySetFields rest k v

/-- Python dict assignment on a JSON object. -/
def pySet (p : J) (k : String) (v : J) : J :=
  match p with
  | .jo fs => .jo (pySetFields fs k v)
  | other => other

/-- Lexicographic less-or-equal on code-point lists. -/
def charListLe : List Char → List Char → Bool
  | [], _ => true
  | _ :: _, [] => false
  | a :: as, b :: bs =>
    if a < b then true else if b < a then false else charListLe as bs

/-- Python string comparison `a <= b`: lexicographic on code points. -/
def pyStrLe (a b : String) : Bool := charListLe a.data b.data

/-- Member table of `EventType` in src/event_types.py.  The file defines
LIKE, COMMENT, SHARE, FOLLOW, UNFOLLOW, MENTION, MESSAGE and POST; it does
not define REPLY or UNKNOWN. -/
def eventTypeMembers : List (String × String) :=
  [("LIKE", "LIKE"), ("COMMENT", "COMMENT"), ("SHARE", "SHARE"),
   ("FOLLOW", "FOLLOW"), ("UNFOLLOW", "UNFOLLOW"), ("MENTION", "MENTION"),
   ("MESSAGE", "MESSAGE"), ("POST", "POST")]

/-- Member table of `EventStatus` in src/models.py (identical to the copy in
src/notification-system/src/models/event.py): START, PROCESSING, SUCCESS and
FAILED.  IN_PROGRESS and RETRY are not members. -/
def eventStatusMembers : List (String × String) :=
  [("START", "START"), ("PROCESSING", "PROCESSING"),
   ("SUCCESS", "SUCCESS"), ("FAILED", "FAILED")]

/-- Member table of `UserType` in
src/notification-system/src/models/user_types.py; note the lowercase
values. -/
def userTypeMembers : List (String × String) :=
  [("ADMIN", "admin"), ("PREMIUM", "premium"), ("BASIC", "basic"), ("FREE", "free")]

/-- Modelled from the spec: the module
src/notification-system/src/models/event_types.py is imported by the nested
listener but is absent from the sources.  Section 3 of the spec lists the
tags LIKE, COMMENT, SHARE, FOLLOW, UNFOLLOW, MENTION, MESSAGE, POST, REPLY
and UNKNOWN; values follow the convention of the sibling src/event_types.py
(value equal to the member name). -/
def specEventTypeMembers : List (String × String) :=
  [("LIKE", "LIKE"), ("COMMENT", "COMMENT"), ("SHARE", "SHARE"),
   ("FOLLOW", "FOLLOW"), ("UNFOLLOW", "UNFOLLOW"), ("MENTION", "MENTION"),
   ("MESSAGE", "MESSAGE"), ("POST", "POST"), ("REPLY", "REPLY"),
   ("UNKNOWN", "UNKNOWN")]

/-- Python enum attribute access `Cls.NAME`: the value of the member when it
is defined, an `AttributeError` otherwise. -/
def pyEnumAttr (cls : String) (members : List (String × String)) (n : String) :
    Except PyErr String :=
  match assocLookup members n with
  | some v => .ok v
  | none => .error (.attributeError cls n)

/-- Evaluation of a Python list literal of enum attribute accesses, such as
the `critical_events` list in `determine_priority`; the first undefined
member aborts with its `AttributeError`. -/
def pyEnumList (cls : String) (members : List (String × String)) :
    List String → Except PyErr (List String)
  | [] => .ok []
  | n :: rest => do
    let v ← pyEnumAttr cls members n
    let vs ← pyEnumList cls members rest
    .ok (v :: vs)

/-- determine_priority from src/sqs_listener.py (lines 29-44).  The function
first builds `critical_events = [EventType.MENTION, EventType.COMMENT,
EventType.REPLY]` and `critical_user_types = [UserType.ADMIN,
UserType.PREMIUM]`, then tests the lowercased payload fields for membership.
A str-mixin enum member compares equal to its value string, so membership of
a lowercased field is membership among the value strings. -/
def determine_priority (p : J) : Except PyErr Bool := do
  let critical_events ← pyEnumList "EventType" eventTypeMembers
    ["MENTION", "COMMENT", "REPLY"]
  let critical_user_types ← pyEnumList "UserType" userTypeMembers
    ["ADMIN", "PREMIUM"]
  .ok (critical_events.contains (pyLower (getStrD p "event_type" ""))
    || pyLower (getStrD p "priority" "") == "high"
    || critical_user_types.contains (pyLower (getStrD p "user_type" "")))

/-- determine_priority from
src/notification-system/src/services/sqs_listener.py (lines 21-36): the same
text as the top-level copy, but resolving `EventType` against the
spec-modelled member table of the absent
src/notification-system/src/models/event_types.py. -/
def ns_determine_priority (p : J) : Except PyErr Bool := do
  let critical_events ← pyEnumList "EventType" specEventTypeMembers
    ["MENTION", "COMMENT", "REPLY"]
  let critical_user_types ← pyEnumList "UserType" userTypeMembers
    ["ADMIN", "PREMIUM"]
  .ok (critical_events.contains (pyLower (getStrD p "event_type" ""))
    || pyLower (getStrD p "priority" "") == "high"
    || critical_user_types.contains (pyLower (getStrD p "user_type" "")))

/-- Closed form of `ns_determine_priority`: the value it returns once the
enum lookups (all defined in the spec-modelled table) have resolved. -/
def ns_critical (p : J) : Bool :=
  ["MENTION", "COMMENT", "REPLY"].contains (pyLower (getStrD p "event_type" ""))
    || pyLower (getStrD p "priority" "") == "high"
    || ["admin", "premium"].contains (pyLower (getStrD p "user_type" ""))

/-- Externally visible actions of the embedded code, in program order. -/
inductive Effect where
  | putItem (table : String) (item : J)
  | updateItem (table : String) (keyAttr : String) (keyVal : J) (sets : List (String × J))
  | sendMsg (queue : String) (payload : J)
  | sleep (seconds : Nat)
  | pushAttempt (target : J)
deriving Repr

/-- process_message from src/sqs_listener.py (lines 125-160), applied to the
already-parsed inner payload `p` of a well-formed envelope, with the freshly
minted uuid and the current ISO timestamp passed as arguments.  Argument
evaluation of the `EventPayload(...)` call reaches
`event_payload.get('event_type', EventType.UNKNOWN)`, whose default is
evaluated unconditionally; were the member defined, the construction would
still be rejected, because `EventPayload` in src/models.py requires the
fields `retry_count` and `event_name` and defines none of the per-channel
retry fields passed here. -/
def tl_process_message (p : J) (freshId nowIso : String) : Except PyErr (List Effect) := do
  let _retry_sms := getIntD p "retry_count_sms" 0
  let _retry_email := getIntD p "retry_count_email" 0
  let _retry_push := getIntD p "retry_count_push" 0
  let _user := getStrD p "user_id" "unknown"
  let _unknownTag ← pyEnumAttr "EventType" eventTypeMembers "UNKNOWN"
  let _id := freshId
  let _now := nowIso
  .error (.validationError "EventPayload")

/-- Python indexing `o[k]` expecting a string value, as in
`user_prefs['quiet_hours']['start']`: a missing key raises `KeyError`. -/
def pyIndexStr (o : J) (k : String) : Except PyErr String :=
  match pyGet o k with
  | some (.js s) => .ok s
  | _ => .error (.keyError k)

/-- Quiet-hours test of route_to_notification_queues in
src/notification-system/src/services/sqs_listener.py (lines 81-89):
`user_prefs.get('quiet_hours', ...).get('enabled', False)` guards the chained
string comparison `quiet_start <= current_time <= quiet_end`. -/
def quietHoursActive (prefs : J) (now : String) : Except PyErr Bool :=
  let qh := getD prefs "quiet_hours" (.jo [])
  if getBoolD qh "enabled" false then do
    let quiet_start ← pyIndexStr qh "start"
    let quiet_end ← pyIndexStr qh "end"
    .ok (pyStrLe quiet_start now && pyStrLe now quiet_end)
  else .ok false

/-- Channel enqueues of route_to_notification_queues (lines 96-124): for each
channel enabled in the preferences, one send of the envelope of the original
`event_payload` to the critical or non-critical queue of the channel.  Queue
names are those of src/notification-system/src/config/settings.py. -/
def channelSends (p prefs : J) (crit : Bool) : List Effect :=
  (if getBoolD prefs "sms" false then
    [.sendMsg (if crit then "sms_queue_critical" else "sms_queue_non_critical") p]
   else [])
  ++ (if getBoolD prefs "email" false then
    [.sendMsg (if crit then "email_queue_critical" else "email_queue_non_critical") p]
   else [])
  ++ (if getBoolD prefs "push" false then
    [.sendMsg (if crit then "push_notification_queue_critical"
               else "push_notification_queue_non_critical") p]
   else [])

/-- route_to_notification_queues from
src/notification-system/src/services/sqs_listener.py (lines 70-124), with the
user preferences `prefs` (the result of the store lookup) and the wall-clock
HH:MM string `now` passed as arguments. -/
def route_to_notification_queues (p prefs : J) (now : String) :
    Except PyErr (List Effect) := do
  let crit ← ns_determine_priority p
  let quiet ← quietHoursActive prefs now
  if quiet && !crit then .ok []
  else if getBoolD prefs "priority_only" false && !crit then .ok []
  else .ok (channelSends p prefs crit)

/-- Value of the `event_type` field of the record built by the nested
process_message: `event_payload.get('event_type', EventType.UNKNOWN)`, the
default being evaluated unconditionally against the spec-modelled enum. -/
def ns_eventTypeField (p : J) : Except PyErr String := do
  let unknownTag ← pyEnumAttr "EventType" specEventTypeMembers "UNKNOWN"
  match pyGet p "event_type" with
  | some (.js s) => .ok s
  | _ => .ok unknownTag

/-- model_dump of the `EventPayload` record built by process_message in
src/notification-system/src/services/sqs_listener.py (lines 189-205), with
field order and defaults of src/notification-system/src/models/event.py. -/
def ns_buildRecord (p : J) (freshId nowIso : String) : Except PyErr J := do
  let et ← ns_eventTypeField p
  .ok (.jo
    [("event_id", .js freshId),
     ("status", .js "START"),
     ("retry_count_email", .jn (getIntD p "retry_count_email" 0)),
     ("retry_count_sms", .jn (getIntD p "retry_count_sms" 0)),
     ("retry_count_push", .jn (getIntD p "retry_count_push" 0)),
     ("user_id", .js (getStrD p "user_id" "unknown")),
     ("event_type", .js et),
     ("payload", .jo
       [("parent_id", .js (getStrD p "parent_id" "unknown")),
        ("parent_type", .js (getStrD p "parent_type" "unknown")),
        ("timestamp", .js (getStrD p "timestamp" nowIso)),
        ("priority", .js (getStrD p "priority" "normal"))])])

/-- process_message from src/notification-system/src/services/sqs_listener.py
(lines 176-232) on the parsed inner payload `p`: persist the START record
under the freshly minted id, then hand the ORIGINAL payload to
route_to_notification_queues. -/
def ns_process_message (p : J) (freshId nowIso now : String) (prefs : J) :
    Except PyErr (List Effect) := do
  let record ← ns_buildRecord p freshId nowIso
  let routed ← route_to_notification_queues p prefs now
  .ok (.putItem "event" record :: routed)

/-- Bodies of the queue sends in an effect list. -/
def sendBodies (effs : List Effect) : List J :=
  effs.filterMap fun e =>
    match e with
    | .sendMsg _ body => some body
    | _ => none

/-- Exponential backoff amount `backoff_factor ** retry_count` with
`backoff_factor = 2`. -/
def backoffPow (retry : Int) : Nat := 2 ^ retry.toNat

/-- Exhausted-budget epilogue of process_message in src/send_email_notif.py
(lines 104-117): write FAILED, then send the payload, with
`retry_count_email` assigned the current counter, to the dlq queue. -/
def email_exhaust (eid p : J) (retry : Int) : List Effect :=
  [.updateItem "event" "event_id" eid [("status", .js "FAILED")],
   .sendMsg "dlq" (pySet p "retry_count_email" (.jn retry))]

/-- Retry loop of process_message in src/send_email_notif.py (lines 75-102),
with explicit fuel (always sufficient at the call below): while
`retry_count < max_retries`, attempt the send; on success write SUCCESS and
stop; on failure increment the counter, persist it, and sleep
`2 ** retry_count` only when the budget is not yet exhausted. -/
def email_loop_go (eid p : J) (outcomes : Nat → Bool) :
    Nat → Nat → Int → List Effect
  | 0, _, _ => []
  | fuel + 1, attempt, retry =>
    if retry < 5 then
      if outcomes attempt then
        [.updateItem "event" "event_id" eid [("status", .js "SUCCESS")]]
      else
        .updateItem "event" "event_id" eid [("retry_count_email", .jn (retry + 1))] ::
        (if retry + 1 < 5 then
          .sleep (backoffPow (retry + 1)) ::
            email_loop_go eid p outcomes fuel (attempt + 1) (retry + 1)
         else email_exhaust eid p (retry + 1))
    else email_exhaust eid p retry

/-- Email retry loop entered with counter `retry` (the fuel covers every
iteration the guard permits). -/
def email_loop (eid p : J) (outcomes : Nat → Bool) (retry : Int) : List Effect :=
  email_loop_go eid p outcomes ((5 - retry).toNat + 1) 0 retry

/-- process_message from src/send_email_notif.py (lines 50-117) on the parsed
inner payload: read `retry_count_email` from the message, then update the
record to `EventStatus.IN_PROGRESS` before the first attempt.  `outcomes`
gives the transport result of each attempt. -/
def email_process_message (p : J) (outcomes : Nat → Bool) : Except PyErr (List Effect) := do
  let retry0 := getIntD p "retry_count_email" 0
  let eid := (pyGet p "event_id").getD .null
  let initialStatus ← pyEnumAttr "EventStatus" eventStatusMembers "IN_PROGRESS"
  .ok (.updateItem "event" "event_id" eid [("status", .js initialStatus)] ::
       email_loop eid p outcomes retry0)

/-- update_dynamodb_status from src/send_sms_notif.py (lines 48-64): one
write of `status` and the channel-agnostic attribute `retry_count` to the
sms_events table, keyed by `message_id`. -/
def sms_status_update (mid : J) (status : String) (retry : Int) : Effect :=
  .updateItem "sms_events" "message_id" mid
    [("status", .js status), ("retry_count", .jn retry)]

/-- Exhausted-budget epilogue of process_message in src/send_sms_notif.py
(lines 100-103): write FAILED, then send the payload, unmodified, to the
dlq queue. -/
def sms_exhaust (mid p : J) (retry : Int) : List Effect :=
  [sms_status_update mid "FAILED" retry, .sendMsg "dlq" p]

/-- Retry loop of process_message in src/send_sms_notif.py (lines 84-98):
on failure the code evaluates `EventStatus.RETRY`, then persists, then
sleeps unconditionally.  The fuel is always sufficient at the call below. -/
def sms_loop_go (mid p : J) (outcomes : Nat → Bool) :
    Nat → Nat → Int → Except PyErr (List Effect)
  | 0, _, _ => .ok []
  | fuel + 1, attempt, retry =>
    if retry < 5 then
      if outcomes attempt then
        .ok [sms_status_update mid "SUCCESS" retry]
      else do
        let retryStatus ← pyEnumAttr "EventStatus" eventStatusMembers "RETRY"
        let rest ← sms_loop_go mid p outcomes fuel (attempt + 1) (retry + 1)
        .ok (sms_status_update mid retryStatus (retry + 1) ::
             .sleep (backoffPow (retry + 1)) :: rest)
    else .ok (sms_exhaust mid p retry)

/-- SMS retry loop entered with counter `retry`. -/
def sms_loop (mid p : J) (outcomes : Nat → Bool) (retry : Int) :
    Except PyErr (List Effect) :=
  sms_loop_go mid p outcomes ((5 - retry).toNat + 1) 0 retry

/-- process_message from src/send_sms_notif.py (lines 66-103) on the parsed
inner payload: the counter starts at the literal 0 (line 77) regardless of
the message, and the record is first set to `EventStatus.IN_PROGRESS`. -/
def sms_process_message (p : J) (outcomes : Nat → Bool) : Except PyErr (List Effect) := do
  let mid := (pyGet p "message_id").getD .null
  let retry0 : Int := 0
  let initialStatus ← pyEnumAttr "EventStatus" eventStatusMembers "IN_PROGRESS"
  let rest ← sms_loop mid p outcomes retry0
  .ok (sms_status_update mid initialStatus retry0 :: rest)

/-- apply_business_logic from src/send_push_notif.py (lines 24-32): targets
come from the payload, and only when its `event_type` equals the literal
string important_update. -/
def apply_business_logic (p : J) : List J :=
  match pyGet p "event_type" with
  | some (.js t) =>
    if t == "important_update" then
      match pyGet p "target_clients" with
      | some (.ja xs) => xs
      | _ => []
    else []
  | _ => []

/-- process_message from src/send_push_notif.py (lines 34-73) on the parsed
inner payload: after the `EventStatus.IN_PROGRESS` update, one attempt per
target client (failures only clear the success flag), a single final status
write, and a DLQ send of the unmodified payload when any attempt failed.
There is no retry loop and `retry_count_push` is never touched. -/
def push_process_message (p : J) (sendOk : J → Bool) : Except PyErr (List Effect) := do
  let eid := (pyGet p "event_id").getD .null
  let targets := apply_business_logic p
  let initialStatus ← pyEnumAttr "EventStatus" eventStatusMembers "IN_PROGRESS"
  let success := targets.all sendOk
  .ok ([.updateItem "event" "event_id" eid [("status", .js initialStatus)]]
    ++ targets.map .pushAttempt
    ++ [.updateItem "event" "event_id" eid
         [("status", .js (if success then "SUCCESS" else "FAILED"))]]
    ++ (if success then [] else [.sendMsg "dlq" p]))

/-- Attempts performed by send_push_notification in
src/notification-system/src/services/push_service.py (lines 103-121): one
per connection whose `device_type` is ios or web. -/
def pushAttemptsOf (conns : List J) : List Effect :=
  conns.foldr (fun c acc =>
    match pyGet c "device_type" with
    | some (.js t) => if t == "ios" || t == "web" then .pushAttempt c :: acc else acc
    | _ => acc) []

/-- send_push_notification from
src/notification-system/src/services/push_service.py (lines 103-121): every
per-connection exception is caught and the loop continues, so the function
returns normally whatever `okFn` says about each target and reports
nothing about failures. -/
def send_push_notification (conns : List J) (_okFn : J → Bool) :
    Except PyErr (List Effect) :=
  .ok (pushAttemptsOf conns)

/-- State of the two queues a channel dispatcher polls. -/
structure DState where
  critical : List J
  noncritical : List J
deriving Repr

/-- What one iteration of the dispatcher loop consumed. -/
inductive Polled where
  | crit (msgs : List J)
  | noncrit (msgs : List J)
  | idle
deriving Repr

/-- One iteration of listen_to_sqs_with_priority (src/send_email_notif.py
lines 119-160, src/send_sms_notif.py lines 105-154): receive up to 10
messages from the critical queue; when that batch is non-empty, process it
and loop; only otherwise receive from the non-critical queue.  Messages
whose processing succeeds are deleted; the rest become visible again. -/
def listen_step (procOk : J → Bool) (s : DState) : DState × Polled :=
  let cbatch := s.critical.take 10
  if cbatch.isEmpty then
    let nbatch := s.noncritical.take 10
    if nbatch.isEmpty then (s, .idle)
    else
      ({ critical := s.critical,
         noncritical := s.noncritical.drop 10 ++ nbatch.filter (fun m => !procOk m) },
       .noncrit nbatch)
  else
    ({ critical := s.critical.drop 10 ++ cbatch.filter (fun m => !procOk m),
       noncritical := s.noncritical },
     .crit cbatch)

/-- Sample inner payload: a LIKE event for user u1, no explicit priority. -/
def likePayload : J := .jo [("event_type", .js "LIKE"), ("user_id", .js "u1")]

/-- Sample preferences with only the sms channel enabled. -/
def smsOnlyPrefs : J := .jo [("sms", .jb true)]

/-- Record the nested ingress persists for `likePayload` under id-1 at T0. -/
def likeRecord : J := .jo
  [("event_id", .js "id-1"), ("status", .js "START"),
   ("retry_count_email", .jn 0), ("retry_count_sms", .jn 0),
   ("retry_count_push", .jn 0), ("user_id", .js "u1"),
   ("event_type", .js "LIKE"),
   ("payload", .jo
     [("parent_id", .js "unknown"), ("parent_type", .js "unknown"),
      ("timestamp", .js "T0"), ("priority", .js "normal")])]

/-- Preferences with quiet hours crossing midnight, 22:00 to 08:00. -/
def crossMidnightPrefs : J := .jo
  [("sms", .jb true),
   ("quiet_hours", .jo
     [("enabled", .jb true), ("start", .js "22:00"), ("end", .js "08:00")])]

/-- Preferences with a same-day quiet window, 09:00 to 17:00. -/
def daytimePrefs : J := .jo
  [("sms", .jb true),
   ("quiet_hours", .jo
     [("enabled", .jb true), ("start", .js "09:00"), ("end", .js "17:00")])]

/-- Sample payload the router classifies critical (priority high). -/
def highPayload : J := .jo
  [("event_type", .js "LIKE"), ("user_id", .js "u1"), ("priority", .js "high")]

theorem except_ok_bind {ε α β : Type} (a : α) (f : α → Except ε β) :
    (Except.ok a >>= f : Except ε β) = f a := rfl

theorem except_error_bind {ε α β : Type} (e : ε) (f : α → Except ε β) :
    (Except.error e >>= f : Except ε β) = .error e := rfl

theorem ns_determine_priority_eq (p : J) :
    ns_determine_priority p = .ok (ns_critical p) := rfl

theorem sendMsg_mem_guard (p : J) (qn : String) (c : Bool) (q : String) (body : J) :
    Effect.sendMsg q body ∈ (if c then [Effect.sendMsg qn p] else []) → body = p := by
  intro h
  by_cases hc : c
  · simp [hc] at h
    exact h.2
  · simp [hc] at h

theorem channelSends_body (p prefs : J) (crit : Bool) (q : String) (body : J) :
    Effect.sendMsg q body ∈ channelSends p prefs crit → body = p := by
  intro h
  unfold channelSends at h
  rcases List.mem_append.mp h with h12 | h3
  · rcases List.mem_append.mp h12 with h1 | h2
    · exact sendMsg_mem_guard p _ _ q body h1
    · exact sendMsg_mem_guard p _ _ q body h2
  · exact sendMsg_mem_guard p _ _ q body h3

theorem charListLe_trans :
    ∀ a b c : List Char, charListLe a b = true → charListLe b c = true →
      charListLe a c = true := by
  intro a
  induction a with
  | nil => intro b c _ _; rfl
  | cons x xs ih =>
    intro b c hab hbc
    cases b with
    | nil => simp [charListLe] at hab
    | cons y ys =>
      cases c with
      | nil => simp [charListLe] at hbc
      | cons z zs =>
        unfold charListLe at hab hbc ⊢
        by_cases hxy : x < y
        · by_cases hyz : y < z
          · simp [lt_trans hxy hyz]
          · by_cases hzy : z < y
            · simp [hyz, hzy] at hbc
            · have hyzeq : y = z := le_antisymm (not_lt.mp hzy) (not_lt.mp hyz)
              subst hyzeq
              simp [hxy]
        · by_cases hyx : y < x
          · simp [hxy, hyx] at hab
          · have hxyeq : x = y := le_antisymm (not_lt.mp hyx) (not_lt.mp hxy)
            subst hxyeq
            simp [hxy] at hab
            by_cases hyz : x < z
            · simp [hyz]
            · by_cases hzy : z < x
              · simp [hyz, hzy] at hbc
              · simp [hyz, hzy] at hbc ⊢
                exact ih ys zs hab hbc

theorem pyStrLe_trans (a b c : String) (hab : pyStrLe a b = true)
    (hbc : pyStrLe b c = true) : pyStrLe a c = true :=
  charListLe_trans a.data b.data c.data hab hbc

/-- Claim C1: the router is claimed to classify an event critical iff its
event_type is MENTION, COMMENT or REPLY, or its priority is high, or the
user type is ADMIN or PREMIUM.  In the code, determine_priority evaluates
`EventType.REPLY`, a member src/event_types.py does not define, so the call
raises AttributeError on every payload; and in the nested copy, where the
spec-modelled enum supplies REPLY, the lowercased event_type is compared
against the uppercase member values, so a MENTION event is still classified
non-critical. -/
theorem c1_priority_code_eval :
    (∀ p : J, determine_priority p = .error (.attributeError "EventType" "REPLY"))
    ∧ ns_determine_priority (.jo [("event_type", .js "MENTION"), ("user_id", .js "u1")])
        = .ok false :=
  ⟨fun _ => rfl, rfl⟩

/-- Claim C2: the ingress router is claimed to persist and fan out events
with unknown or missing event_type, routing them as UNKNOWN.  In the code,
process_message evaluates `EventType.UNKNOWN` unconditionally (it is the
eagerly evaluated default of a dict get), and src/event_types.py defines no
such member, so every message raises AttributeError: nothing is persisted
and nothing is fanned out. -/
theorem c2_ingress_unknown_crash :
    ∀ (p : J) (freshId nowIso : String),
      tl_process_message p freshId nowIso
        = .error (.attributeError "EventType" "UNKNOWN") :=
  fun _ _ _ => rfl

/-- Claim C4: the delivery workers are claimed to write PROCESSING before
every attempt and to write SUCCESS and FAILED at most once.  In the code,
each worker first evaluates `EventStatus.IN_PROGRESS`, a member the
EventStatus enum does not define, so every worker raises AttributeError
before writing any status at all. -/
theorem c4_status_write_crash :
    ∀ (p : J) (outcomes : Nat → Bool) (sendOk : J → Bool),
      email_process_message p outcomes
          = .error (.attributeError "EventStatus" "IN_PROGRESS")
      ∧ sms_process_message p outcomes
          = .error (.attributeError "EventStatus" "IN_PROGRESS")
      ∧ push_process_message p sendOk
          = .error (.attributeError "EventStatus" "IN_PROGRESS") :=
  fun _ _ _ => ⟨rfl, rfl, rfl⟩

/-- Claim C5: each worker is claimed to resume from the persisted
`retry_count_<channel>` and keep it non-decreasing.  In the code, the SMS
worker aborts on `EventStatus.IN_PROGRESS` before any attempt; moreover its
retry loop, entered with the hard-coded literal 0 rather than the counter of
the message, aborts on `EventStatus.RETRY` at the first failure, so
retry_count_sms is never read and never written. -/
theorem c5_retry_counter_crash :
    (∀ (p : J) (outcomes : Nat → Bool),
      sms_process_message p outcomes
        = .error (.attributeError "EventStatus" "IN_PROGRESS"))
    ∧ (∀ mid p : J,
      sms_loop mid p (fun _ => false) 0
        = .error (.attributeError "EventStatus" "RETRY")) :=
  ⟨fun _ _ => rfl, fun _ _ => rfl⟩

/-- Claim C6: FAILED is claimed to imply a DLQ message with the same
event_id and `retry_count_<channel> = MAX_RETRIES`.  In the code, every
worker aborts on `EventStatus.IN_PROGRESS` before any attempt, so FAILED is
never written and nothing reaches the DLQ; moreover the email exhaustion
path in isolation forwards whatever counter it holds (here 7, not 5) and
the SMS exhaustion path sends the payload without any updated counter. -/
theorem c6_dlq_crash :
    (∀ (p : J) (o : Nat → Bool) (f : J → Bool),
      email_process_message p o = .error (.attributeError "EventStatus" "IN_PROGRESS")
      ∧ push_process_message p f = .error (.attributeError "EventStatus" "IN_PROGRESS"))
    ∧ email_loop (.js "e1") (.jo [("event_id", .js "e1"), ("retry_count_email", .jn 7)])
        (fun _ => false) 7
        = [.updateItem "event" "event_id" (.js "e1") [("status", .js "FAILED")],
           .sendMsg "dlq" (.jo [("event_id", .js "e1"), ("retry_count_email", .jn 7)])]
    ∧ sms_loop (.js "m1") (.jo [("event_id", .js "e1")]) (fun _ => false) 5
        = .ok [sms_status_update (.js "m1") "FAILED" 5,
               .sendMsg "dlq" (.jo [("event_id", .js "e1")])] :=
  ⟨fun _ _ _ => ⟨rfl, rfl⟩, rfl, rfl⟩

/-- Claim C7: the push worker is claimed to enumerate the registered
connections of the user and to treat a partial failure as a retryable
failure that increments retry_count_push.  In the code, the worker aborts on
`EventStatus.IN_PROGRESS` on every message; its targets come from the
`target_clients` field of the payload, and only when event_type equals
important_update, never from the connection registry; and the registry-based
send_push_notification of the nested service swallows every per-connection
failure, returning the same result whatever the per-target outcomes are. -/
theorem c7_push_targets_crash :
    (∀ (p : J) (sendOk : J → Bool),
      push_process_message p sendOk
        = .error (.attributeError "EventStatus" "IN_PROGRESS"))
    ∧ apply_business_logic (.jo [("event_type", .js "MENTION"),
        ("target_clients", .ja [.js "c1", .js "c2"])]) = []
    ∧ (∀ (conns : List J) (ok1 ok2 : J → Bool),
        send_push_notification conns ok1 = send_push_notification conns ok2
        ∧ send_push_notification conns ok1 = .ok (pushAttemptsOf conns)) :=
  ⟨fun _ _ => rfl, rfl, fun _ _ _ => ⟨rfl, rfl⟩⟩

/-- Claim C10: the backoff sleep is claimed to be computed after the
increment, first sleep BASE to the 1, last BASE to the MAX_RETRIES minus 1,
none after the final failure.  In the code no sleep ever happens: both
workers abort on `EventStatus.IN_PROGRESS` before their loops, and the SMS
loop additionally aborts on `EventStatus.RETRY` at the first failure,
before its (unconditional) sleep line.  The email loop in isolation does
realize the claimed schedule: sleeps 2, 4, 8, 16 and none after the fifth
failure. -/
theorem c10_backoff_crash :
    (∀ (p : J) (o : Nat → Bool),
      email_process_message p o = .error (.attributeError "EventStatus" "IN_PROGRESS")
      ∧ sms_process_message p o = .error (.attributeError "EventStatus" "IN_PROGRESS"))
    ∧ email_loop (.js "e1") (.jo [("event_id", .js "e1")]) (fun _ => false) 0
        = [.updateItem "event" "event_id" (.js "e1") [("retry_count_email", .jn 1)],
           .sleep 2,
           .updateItem "event" "event_id" (.js "e1") [("retry_count_email", .jn 2)],
           .sleep 4,
           .updateItem "event" "event_id" (.js "e1") [("retry_count_email", .jn 3)],
           .sleep 8,
           .updateItem "event" "event_id" (.js "e1") [("retry_count_email", .jn 4)],
           .sleep 16,
           .updateItem "event" "event_id" (.js "e1") [("retry_count_email", .jn 5)],
           .updateItem "event" "event_id" (.js "e1") [("status", .js "FAILED")],
           .sendMsg "dlq" (.jo [("event_id", .js "e1"), ("retry_count_email", .jn 5)])]
    ∧ (∀ mid p : J,
        sms_loop mid p (fun _ => false) 0
          = .error (.attributeError "EventStatus" "RETRY")) :=
  ⟨fun _ _ => ⟨rfl, rfl⟩, rfl, fun _ _ => rfl⟩

/-- Claim C3 counterexample: the ingress router is claimed to enqueue a copy
of the serialized record it persisted, carrying the minted event_id.  On a
LIKE payload with sms enabled, the nested router persists `likeRecord`
(which carries id-1) but enqueues the original payload, which has no
event_id field at all. -/
theorem c3_enqueue_counterexample :
    ns_process_message likePayload "id-1" "T0" "12:00" smsOnlyPrefs
      = .ok [.putItem "event" likeRecord,
             .sendMsg "sms_queue_non_critical" likePayload]
    ∧ pyGet likePayload "event_id" = none
    ∧ pyGet likeRecord "event_id" = some (.js "id-1") :=
  ⟨rfl, rfl, rfl⟩

/-- Claim C3 amended: every message the ingress router enqueues on a channel
queue is a copy of the ORIGINAL incoming payload, not of the persisted
record; in particular it carries the event_id minted at ingress only when
the incoming payload already carried one. -/
theorem c3_enqueue_amended :
    ∀ (p prefs : J) (freshId nowIso now : String) (effs : List Effect)
      (q : String) (body : J),
      ns_process_message p freshId nowIso now prefs = .ok effs →
      Effect.sendMsg q body ∈ effs → body = p := by
  intro p prefs freshId nowIso now effs q body hok hmem
  unfold ns_process_message at hok
  cases hb : ns_buildRecord p freshId nowIso with
  | error e => rw [hb, except_error_bind] at hok; exact Except.noConfusion hok
  | ok record =>
    rw [hb, except_ok_bind] at hok
    cases hr : route_to_notification_queues p prefs now with
    | error e => rw [hr, except_error_bind] at hok; exact Except.noConfusion hok
    | ok routed =>
      rw [hr, except_ok_bind] at hok
      injection hok with hok
      subst hok
      cases hmem with
      | tail _ hmem2 =>
        unfold route_to_notification_queues at hr
        rw [ns_determine_priority_eq, except_ok_bind] at hr
        cases hq : quietHoursActive prefs now with
        | error e => rw [hq, except_error_bind] at hr; exact Except.noConfusion hr
        | ok qv =>
          rw [hq, except_ok_bind] at hr
          by_cases h1 : (qv && !ns_critical p) = true
          · rw [if_pos h1] at hr
            injection hr with hr
            rw [← hr] at hmem2
            exact absurd hmem2 (List.not_mem_nil _)
          · rw [if_neg h1] at hr
            by_cases h2 : (getBoolD prefs "priority_only" false && !ns_critical p) = true
            · rw [if_pos h2] at hr
              injection hr with hr
              rw [← hr] at hmem2
              exact absurd hmem2 (List.not_mem_nil _)
            · rw [if_neg h2] at hr
              injection hr with hr
              rw [← hr] at hmem2
              exact channelSends_body p prefs (ns_critical p) q body hmem2

/-- Witness for the amended C3 theorem, at the LIKE payload, sms-only
preferences and mint id-1: the enqueued body is the original payload. -/
theorem c3_enqueue_amended_w : likePayload = likePayload :=
  c3_enqueue_amended likePayload smsOnlyPrefs "id-1" "T0" "12:00"
    [.putItem "event" likeRecord, .sendMsg "sms_queue_non_critical" likePayload]
    "sms_queue_non_critical" likePayload rfl
    (List.Mem.tail _ (List.Mem.head _))

/-- Claim C8: in the dispatcher loop of the channel workers, a batch is
received from the non-critical queue only in an iteration whose critical
receive returned no messages, which under the FIFO queue model means the
critical queue is empty: no non-critical message is consumed while the
critical queue holds any message. -/
theorem c8_strict_priority :
    ∀ (procOk : J → Bool) (s s2 : DState) (msgs : List J),
      listen_step procOk s = (s2, .noncrit msgs) → s.critical = [] := by
  intro procOk s s2 msgs h
  cases hc : s.critical with
  | nil => rfl
  | cons a as =>
    exfalso
    unfold listen_step at h
    rw [hc] at h
    simp at h

/-- Witness for C8: a state with an empty critical queue and one queued
non-critical message, where the step does consume from the non-critical
queue. -/
theorem c8_strict_priority_w : (DState.mk [] [J.js "m"]).critical = [] :=
  c8_strict_priority (fun _ => true) (DState.mk [] [J.js "m"])
    (DState.mk [] []) [J.js "m"] rfl

/-- Claim C9 counterexample: with quiet hours 22:00 to 08:00 (crossing
midnight) a non-critical event at local 23:30 is claimed suppressed; the
code string-compares start, now and end, finds 23:30 not inside the window,
and enqueues the message. -/
theorem c9_quiet_hours_counterexample :
    route_to_notification_queues likePayload crossMidnightPrefs "23:30"
      = .ok [.sendMsg "sms_queue_non_critical" likePayload]
    ∧ quietHoursActive crossMidnightPrefs "23:30" = .ok false :=
  ⟨rfl, rfl⟩

/-- Claim C9 amended: a non-critical event is suppressed exactly when the
chained string comparison start, now, end holds, so a quiet window whose
start exceeds its end (one crossing midnight) never suppresses anything;
events the router itself classifies critical are never suppressed. -/
theorem c9_quiet_hours_amended :
    ∀ (p prefs : J) (now : String),
      (quietHoursActive prefs now = .ok true → ns_critical p = false →
        route_to_notification_queues p prefs now = .ok [])
      ∧ (∀ st en : String,
          pyIndexStr (getD prefs "quiet_hours" (.jo [])) "start" = .ok st →
          pyIndexStr (getD prefs "quiet_hours" (.jo [])) "end" = .ok en →
          pyStrLe st en = false → quietHoursActive prefs now ≠ .ok true)
      ∧ (ns_critical p = true →
          ∀ qv : Bool, quietHoursActive prefs now = .ok qv →
          route_to_notification_queues p prefs now
            = .ok (channelSends p prefs true)) := by
  intro p prefs now
  refine ⟨?_, ?_, ?_⟩
  · intro hq hcrit
    unfold route_to_notification_queues
    rw [ns_determine_priority_eq, except_ok_bind, hq, except_ok_bind, hcrit]
    simp
  · intro st en hst hen hlt hcontra
    unfold quietHoursActive at hcontra
    by_cases hen2 : getBoolD (getD prefs "quiet_hours" (.jo [])) "enabled" false = true
    · rw [if_pos hen2, hst, except_ok_bind, hen, except_ok_bind] at hcontra
      injection hcontra with hcontra
      have h1 : pyStrLe st now = true := by
        cases hsn : pyStrLe st now with
        | true => rfl
        | false => rw [hsn] at hcontra; simp at hcontra
      have h2 : pyStrLe now en = true := by
        cases hne : pyStrLe now en with
        | true => rfl
        | false => rw [hne] at hcontra; simp at hcontra
      exact absurd (pyStrLe_trans st now en h1 h2) (by simp [hlt])
    · rw [if_neg hen2] at hcontra
      injection hcontra with hcontra
      exact Bool.noConfusion hcontra
  · intro hcrit qv hq
    unfold route_to_notification_queues
    rw [ns_determine_priority_eq, except_ok_bind, hq, except_ok_bind, hcrit]
    simp

/-- Witness for the amended C9 theorem: the suppression branch at a same-day
window (09:00 to 17:00, now 12:00, non-critical LIKE), the inertness of the
cross-midnight window (22:00 to 08:00), and the critical bypass (priority
high during the cross-midnight window). -/
theorem c9_quiet_hours_amended_w :
    route_to_notification_queues likePayload daytimePrefs "12:00" = .ok []
    ∧ quietHoursActive crossMidnightPrefs "23:30" ≠ .ok true
    ∧ route_to_notification_queues highPayload crossMidnightPrefs "23:30"
        = .ok (channelSends highPayload crossMidnightPrefs true) :=
  ⟨(c9_quiet_hours_amended likePayload daytimePrefs "12:00").1 rfl rfl,
   (c9_quiet_hours_amended likePayload crossMidnightPrefs "23:30").2.1
     "22:00" "08:00" rfl rfl rfl,
   (c9_quiet_hours_amended highPayload crossMidnightPrefs "23:30").2.2
     rfl false rfl⟩

end EventNotif
